import Mathlib

/-!
Shallow embedding of the PDF OCR processor (informaticafecor/NuevoProyecOCR).

The embedding follows the Python source files:
* `src/core/pdf_detector.py` — text-presence analyzer (`PDFDetector`);
* `src/core/ocr_processor.py` — OCR invoker (`OCRProcessor`);
* `src/utils/validators.py`  — path validators (`FileValidator`);
* `src/utils/config.py`      — static configuration (`Config.OCRMYPDF_CONFIG`);
* `src/main.py`              — orchestrator (`process_single_pdf`).

Modelling conventions:
* Python strings are modelled as `List Char`; Python's `str.split()` (split on
  whitespace runs, dropping empty fields) is modelled by `pySplit` over the
  ASCII whitespace characters.
* Python numbers are modelled exactly: `int` as `Nat`, float division results
  (`average_chars_per_page`, ratios) as `ℚ`.
* Filesystem and external-library effects are modelled as explicit oracle
  values passed in (the text each backend would extract, the OCR engine's
  outcome, `stat`/`exists` answers), so every function is pure and executable.
* A Python function that can raise is modelled with `Except`/`Option`.
-/

namespace PdfOcr

/-- The ASCII whitespace characters recognised by Python's `str.split()`
(space, tab, newline, vertical tab, form feed, carriage return). -/
def isPySpace (c : Char) : Bool :=
  c == ' ' || c == '\t' || c == '\n' || c == '\x0b' || c == '\x0c' || c == '\r'

/-- Python's `text.split()`: split on runs of whitespace, dropping empty
fields (from `pdf_detector.py` line 100, `text.split()`). -/
def pySplit (s : List Char) : List (List Char) :=
  match s with
  | [] => []
  | c :: cs =>
    if isPySpace c then pySplit cs
    else (c :: cs.takeWhile (fun d => !isPySpace d)) ::
         pySplit (cs.dropWhile (fun d => !isPySpace d))
termination_by s.length
decreasing_by
  · simp only [List.length_cons]
    omega
  · have h := (List.dropWhile_sublist (l := cs) (p := fun d => !isPySpace d)).length_le
    simp only [List.length_cons]
    omega

/-- Python's `' '.join(text.split())` (from `pdf_detector.py` line 100):
collapse every whitespace run to a single space, dropping leading and
trailing whitespace. -/
def normalizeWhitespace (s : List Char) : List Char :=
  List.intercalate [' '] (pySplit s)

/-- `PDFDetector.__init__` (pdf_detector.py lines 17-19): character threshold
50 and text-page ratio threshold 0.1. -/
structure PDFDetector where
  min_text_threshold : Nat
  min_text_ratio : ℚ
deriving DecidableEq

def PDFDetector.new : PDFDetector :=
  { min_text_threshold := 50, min_text_ratio := 1/10 }

/-- The analysis dictionary built by `PDFDetector.analyze_pdf`
(pdf_detector.py lines 32-43).  `average_chars_per_page` (a Python float
obtained by true division of two nonnegative ints) is modelled exactly
as a rational. -/
structure AnalysisResult where
  file_path : String
  has_text : Bool
  is_searchable : Bool
  needs_ocr : Bool
  total_pages : Nat
  pages_with_text : Nat
  total_characters : Nat
  average_chars_per_page : ℚ
  analysis_method : String
  error : Option String
deriving DecidableEq

/-- The initial dictionary of `analyze_pdf` (lines 32-43). -/
def initResult (pdf_path : String) : AnalysisResult :=
  { file_path := pdf_path
    has_text := false
    is_searchable := false
    needs_ocr := true
    total_pages := 0
    pages_with_text := 0
    total_characters := 0
    average_chars_per_page := 0
    analysis_method := ""
    error := none }

/-- Character count of one page after whitespace normalization
(pdf_detector.py lines 99-101). -/
def charCount (text : List Char) : Nat := (normalizeWhitespace text).length

/-- The page loop of `_analyze_with_pymupdf` (lines 95-110): the pair
(total_chars, pages_with_text) accumulated over the pages. -/
def pymupdfCounts (det : PDFDetector) : List (List Char) → Nat × Nat
  | [] => (0, 0)
  | text :: rest =>
    let char_count := charCount text
    let acc := pymupdfCounts det rest
    (char_count + acc.1, (if char_count > det.min_text_threshold then 1 else 0) + acc.2)

/-- The page loop of `_analyze_with_pypdf2` (lines 144-157): a page whose
`extract_text()` raised is `none`; the loop catches the error and
continues, contributing to neither counter. -/
def pypdf2Counts (det : PDFDetector) : List (Option (List Char)) → Nat × Nat
  | [] => (0, 0)
  | none :: rest => pypdf2Counts det rest
  | some text :: rest =>
    let char_count := charCount text
    let acc := pypdf2Counts det rest
    (char_count + acc.1, (if char_count > det.min_text_threshold then 1 else 0) + acc.2)

/-- `_analyze_with_pymupdf` on a successful run (lines 87-118): writes
the method name, the page count, both counters and the average
(0 when there are no pages, line 116). -/
def analyzeWithPymupdf (det : PDFDetector) (pages : List (List Char))
    (r : AnalysisResult) : AnalysisResult :=
  let counts := pymupdfCounts det pages
  { r with
      analysis_method := "PyMuPDF"
      total_pages := pages.length
      total_characters := counts.1
      pages_with_text := counts.2
      average_chars_per_page :=
        if pages.length > 0 then (counts.1 : ℚ) / (pages.length : ℚ) else 0 }

/-- `_analyze_with_pypdf2` on a successful run (lines 135-163). -/
def analyzeWithPypdf2 (det : PDFDetector) (pages : List (Option (List Char)))
    (r : AnalysisResult) : AnalysisResult :=
  let counts := pypdf2Counts det pages
  { r with
      analysis_method := "PyPDF2"
      total_pages := pages.length
      total_characters := counts.1
      pages_with_text := counts.2
      average_chars_per_page :=
        if pages.length > 0 then (counts.1 : ℚ) / (pages.length : ℚ) else 0 }

/-- `_determine_ocr_need` (pdf_detector.py lines 169-185).  The Python
conjunction short-circuits, so the division `pages_with_text / total_pages`
is only evaluated when the first two conjuncts hold; when it is evaluated
with `total_pages == 0` a `ZeroDivisionError` propagates and none of the
three flags is written, modelled by the `.error` case. -/
def determineOcrNeed (det : PDFDetector) (r : AnalysisResult) :
    Except String AnalysisResult :=
  if r.total_characters > det.min_text_threshold then
    if r.average_chars_per_page > (det.min_text_threshold : ℚ) then
      if r.total_pages = 0 then
        .error "ZeroDivisionError: division by zero"
      else
        let has_sufficient_text : Bool :=
          decide ((r.pages_with_text : ℚ) / (r.total_pages : ℚ) ≥ det.min_text_ratio)
        .ok { r with
                has_text := has_sufficient_text
                is_searchable := has_sufficient_text
                needs_ocr := !has_sufficient_text }
    else
      .ok { r with has_text := false, is_searchable := false, needs_ocr := true }
  else
    .ok { r with has_text := false, is_searchable := false, needs_ocr := true }

/-- A successful extraction: which backend succeeded and the raw text it
returned for each page.  For PyPDF2 a page entry is `none` when that page's
`extract_text()` raised. -/
inductive ExtractOk
  | pymupdf (pages : List (List Char))
  | pypdf2 (pages : List (Option (List Char)))
deriving DecidableEq

/-- The extraction oracle for one `analyze_pdf` call: either one backend
succeeds, or both raise.  When both raise, `stale_pages`/`stale_method` are
the in-place writes to `total_pages`/`analysis_method` that a failing
backend may have performed before raising (the only keys a failing run can
have written: the counting totals are local variables committed only after
the loop, lines 114-116 and 159-161). -/
inductive Extraction
  | ok (e : ExtractOk)
  | bothFail (stale_pages : Nat) (stale_method : String)
deriving DecidableEq

/-- First stage of `analyze_pdf` on a successful extraction: the result
dictionary as filled by whichever backend succeeded. -/
def stage1 (det : PDFDetector) (pdf_path : String) : ExtractOk → AnalysisResult
  | .pymupdf pages => analyzeWithPymupdf det pages (initResult pdf_path)
  | .pypdf2 pages => analyzeWithPypdf2 det pages (initResult pdf_path)

/-- The dictionary returned by the `except` clause of `analyze_pdf`
(lines 66-74).  Keys the clause omits are modelled by the neutral values a
`.get` lookup would default to. -/
def exceptionResult (pdf_path msg : String) : AnalysisResult :=
  { file_path := pdf_path
    has_text := false
    is_searchable := false
    needs_ocr := true
    total_pages := 0
    pages_with_text := 0
    total_characters := 0
    average_chars_per_page := 0
    analysis_method := ""
    error := some msg }

/-- `PDFDetector.analyze_pdf` (pdf_detector.py lines 21-74): primary
backend, fallback, both-failed early return, classification, and the
enclosing exception handler. -/
def analyze_pdf (det : PDFDetector) (pdf_path : String) : Extraction → AnalysisResult
  | .ok e =>
    match determineOcrNeed det (stage1 det pdf_path e) with
    | .ok r => r
    | .error msg => exceptionResult pdf_path msg
  | .bothFail stale_pages stale_method =>
    { initResult pdf_path with
        total_pages := stale_pages
        analysis_method := stale_method
        error := some "No se pudo analizar el PDF con ningún método" }

/-- The `Config.OCRMYPDF_CONFIG` dictionary (config.py lines 34-41), seen
through the key lookups `OCRProcessor.__init__` performs (keys the
dictionary does not define are `none`). -/
structure OcrConfig where
  tesseract_cmd : Option String
  language : Option String
  dpi : Option Nat
  deskew : Option Bool
  clean : Option Bool
  optimize : Option Nat
  pdf_renderer : Option String
  progress_bar : Option Bool
deriving DecidableEq

def OCRMYPDF_CONFIG : OcrConfig :=
  { tesseract_cmd := none
    language := some "spa"
    dpi := none
    deskew := some true
    clean := some true
    optimize := some 1
    pdf_renderer := some "hocr"
    progress_bar := some true }

/-- `OCRProcessor.__init__` (ocr_processor.py lines 19-29). -/
structure OCRProcessor where
  config : OcrConfig
  tesseract_cmd : Option String
  language : String
  dpi : Nat
deriving DecidableEq

def OCRProcessor.new (config : OcrConfig) : OCRProcessor :=
  { config := config
    tesseract_cmd := config.tesseract_cmd
    language := config.language.getD "spa"
    dpi := config.dpi.getD 300 }

/-- The keyword arguments `_apply_ocr` passes to `ocrmypdf.ocr` (the
`ocr_config` dictionary, ocr_processor.py lines 116-126). -/
structure OcrmypdfArgs where
  language : String
  deskew : Bool
  clean : Bool
  optimize : Nat
  pdf_renderer : String
  progress_bar : Bool
  force_ocr : Bool
  redo_ocr : Bool
  skip_text : Bool
deriving DecidableEq

/-- The argument record `_apply_ocr` builds for the engine call.  Every
flag is a literal constant of the dictionary except `language`, which
comes from the processor. -/
def OCRProcessor.applyOcrArgs (p : OCRProcessor) : OcrmypdfArgs :=
  { language := p.language
    deskew := false
    clean := false
    optimize := 1
    pdf_renderer := "hocr"
    progress_bar := false
    force_ocr := true
    redo_ocr := false
    skip_text := false }

/-- Outcome of one `ocrmypdf.ocr` call: normal return, the engine's
`ExitCodeNotOk` exception, or any other exception. -/
inductive EngineOutcome
  | ok
  | exitCodeNotOk (msg : String)
  | engineError (msg : String)
deriving DecidableEq

/-- Return value of `_apply_ocr` (ocr_processor.py lines 99-150): `true`
when `ocrmypdf.ocr` returns, `false` when it raises (both handlers log the
caught message and return `False`; the message is never stored in the
result). -/
def applyOcrReturn : EngineOutcome → Bool
  | .ok => true
  | .exitCodeNotOk _ => false
  | .engineError _ => false

/-- `pages_processed` is an int in Python until `_copy_existing` overwrites
it with the string `'N/A (copia directa)'`. -/
inductive PagesProcessed
  | num (n : Nat)
  | text (s : String)
deriving DecidableEq

/-- The result dictionary of `OCRProcessor.process_pdf`
(ocr_processor.py lines 45-55). -/
structure ProcessingResult where
  success : Bool
  input_file : String
  output_file : String
  processing_method : String
  pages_processed : PagesProcessed
  processing_time : Nat
  file_size_before : Nat
  file_size_after : Nat
  error : Option String
deriving DecidableEq

/-- Filesystem and engine oracle for one `process_pdf` call:
`inputStat` is `Path(input_path).stat().st_size` or the raised message;
`analysis` is what `detector.analyze_pdf(input_path)` returns;
`engineOutcome` is the outcome of `ocrmypdf.ocr`; `copyOutcome` the outcome
of `shutil.copy2`; `outputExistsAfter`/`outputSizeAfter` describe
`Path(output_path)` after the chosen action. -/
structure OcrEnv where
  inputStat : Except String Nat
  analysis : AnalysisResult
  engineOutcome : EngineOutcome
  copyOutcome : Except String Unit
  outputExistsAfter : Bool
  outputSizeAfter : Nat

/-- Instrumentation of one `process_pdf` call: how many times the engine
was invoked, how many times the detector was consulted, and the argument
record of the engine invocation when one happened. -/
structure ProcTrace where
  engineCalls : Nat
  detectorCalls : Nat
  engineArgs : Option OcrmypdfArgs
deriving DecidableEq

/-- `_copy_existing` (ocr_processor.py lines 152-179): on success writes
the `'N/A (copia directa)'` marker and returns `True`; when `shutil.copy2`
raises it returns `False` leaving the result untouched. -/
def copyExisting (env : OcrEnv) (r : ProcessingResult) : ProcessingResult × Bool :=
  match env.copyOutcome with
  | .ok _ => ({ r with pages_processed := .text "N/A (copia directa)" }, true)
  | .error _ => (r, false)

/-- The action-selection block of `process_pdf` (ocr_processor.py
lines 63-78): forced OCR, OCR when the analyzer says so (the analyzer's
answer is the oracle field `env.analysis`), or plain copy.  Returns the
updated result, the `success` local of the Python code, and the
instrumentation. -/
def chooseAction (p : OCRProcessor) (env : OcrEnv) (r0 : ProcessingResult)
    (force_ocr : Bool) : ProcessingResult × Bool × ProcTrace :=
  if force_ocr then
    ({ r0 with processing_method := "OCR_FORCED" },
     applyOcrReturn env.engineOutcome,
     { engineCalls := 1, detectorCalls := 0, engineArgs := some p.applyOcrArgs })
  else if env.analysis.needs_ocr then
    ({ r0 with processing_method := "OCR_APPLIED" },
     applyOcrReturn env.engineOutcome,
     { engineCalls := 1, detectorCalls := 1, engineArgs := some p.applyOcrArgs })
  else
    let c := copyExisting env { r0 with processing_method := "COPY_EXISTING" }
    (c.1, c.2, { engineCalls := 0, detectorCalls := 1, engineArgs := none })

/-- `OCRProcessor.process_pdf` (ocr_processor.py lines 31-97): stat the
input, choose and run the action, then declare success only if the action
reported success and the output file exists; otherwise record the fixed
error message (line 86).  The outer `except` clause (lines 90-97) catches
a raised stat. -/
def OCRProcessor.process_pdf (p : OCRProcessor) (input_path output_path : String)
    (env : OcrEnv) (force_ocr : Bool) : ProcessingResult × ProcTrace :=
  match env.inputStat with
  | .error e =>
    ({ success := false
       input_file := input_path
       output_file := output_path
       processing_method := ""
       pages_processed := .num 0
       processing_time := 0
       file_size_before := 0
       file_size_after := 0
       error := some e },
     { engineCalls := 0, detectorCalls := 0, engineArgs := none })
  | .ok size_before =>
    let r0 : ProcessingResult :=
      { success := false
        input_file := input_path
        output_file := output_path
        processing_method := ""
        pages_processed := .num 0
        processing_time := 0
        file_size_before := size_before
        file_size_after := 0
        error := none }
    let branch := chooseAction p env r0 force_ocr
    if branch.2.1 && env.outputExistsAfter then
      ({ branch.1 with success := true, file_size_after := env.outputSizeAfter },
       branch.2.2)
    else
      ({ branch.1 with error := some "El archivo de salida no se generó correctamente" },
       branch.2.2)

/-- The answers the filesystem gives to the checks the validators perform
about one path (validators.py): existence, lowercased suffix, byte size,
parent-directory existence/creatability, writability, and the resolved
absolute path (used only to state path-equality claims). -/
structure PathInfo where
  pathExists : Bool
  suffixLower : String
  sizeBytes : Nat
  parentExists : Bool
  parentCreatable : Bool
  writable : Bool
  resolved : String
deriving DecidableEq

/-- `FileValidator.validate_pdf_file` (validators.py lines 16-51). -/
def validate_pdf_file (file_path : String) (info : PathInfo) : Bool × Option String :=
  if !info.pathExists then
    (false, some ("El archivo no existe: " ++ file_path))
  else if info.suffixLower != ".pdf" then
    (false, some ("El archivo debe ser PDF, recibido: " ++ info.suffixLower))
  else if (info.sizeBytes : ℚ) / (1024 * 1024) > 100 then
    (false, some "Archivo muy grande (máximo 100MB)")
  else if info.sizeBytes = 0 then
    (false, some "El archivo PDF está vacío")
  else
    (true, none)

/-- `FileValidator.validate_output_path` (validators.py lines 53-87).  It
receives only the output path: no field of the input path is consulted. -/
def validate_output_path (output_path : String) (info : PathInfo) : Bool × Option String :=
  if !info.parentExists && !info.parentCreatable then
    (false, some "No se puede crear directorio")
  else if info.suffixLower != ".pdf" then
    (false, some "El archivo de salida debe tener extensión .pdf")
  else if info.pathExists && !info.writable then
    (false, some ("Sin permisos de escritura en: " ++ output_path))
  else
    (true, none)

/-- Oracle for one `process_single_pdf` call. -/
structure OrchestratorEnv where
  inputInfo : PathInfo
  outputInfo : PathInfo
  extraction : Extraction
  ocrEnv : OcrEnv

/-- Instrumentation of one orchestrator run: whether control reached the
analyzer and whether it reached the OCR invoker. -/
structure OrchTrace where
  analyzerCalled : Bool
  invokerCalled : Bool
deriving DecidableEq

/-- `process_single_pdf` (main.py lines 121-191): validate the input path,
validate the output path, run the analyzer and abort on an analysis error,
otherwise run the OCR invoker and report its success flag. -/
def process_single_pdf (env : OrchestratorEnv) (input_path output_path : String)
    (force_ocr : Bool) : Bool × OrchTrace :=
  if !(validate_pdf_file input_path env.inputInfo).1 then
    (false, { analyzerCalled := false, invokerCalled := false })
  else if !(validate_output_path output_path env.outputInfo).1 then
    (false, { analyzerCalled := false, invokerCalled := false })
  else
    let analysis := analyze_pdf PDFDetector.new input_path env.extraction
    if analysis.error.isSome then
      (false, { analyzerCalled := true, invokerCalled := false })
    else
      let p := OCRProcessor.new OCRMYPDF_CONFIG
      let result := (p.process_pdf input_path output_path
        { env.ocrEnv with analysis := analysis } force_ocr).1
      (result.success, { analyzerCalled := true, invokerCalled := true })

theorem pySplit_nil : pySplit [] = [] := by
  rw [pySplit]

theorem pySplit_cons_space (c : Char) (cs : List Char) (h : isPySpace c = true) :
    pySplit (c :: cs) = pySplit cs := by
  rw [pySplit]
  simp [h]

theorem pySplit_cons_nonspace (c : Char) (cs : List Char) (h : isPySpace c = false) :
    pySplit (c :: cs) =
      (c :: cs.takeWhile (fun d => !isPySpace d)) ::
        pySplit (cs.dropWhile (fun d => !isPySpace d)) := by
  rw [pySplit]
  simp [h]

/-- Every field produced by `pySplit` is a nonempty run of non-whitespace
characters. -/
theorem pySplit_fields (s : List Char) :
    ∀ w ∈ pySplit s, w ≠ [] ∧ ∀ c ∈ w, isPySpace c = false := by
  induction s using pySplit.induct with
  | case1 =>
    rw [pySplit_nil]
    intro w hw
    cases hw
  | case2 c cs hc ih =>
    rw [pySplit_cons_space c cs hc]
    exact ih
  | case3 c cs hc ih =>
    rw [pySplit_cons_nonspace c cs (by simpa using hc)]
    intro w hw
    rcases List.mem_cons.mp hw with h | h
    · subst h
      refine ⟨by simp, ?_⟩
      intro d hd
      rcases List.mem_cons.mp hd with h | h
      · subst h
        simpa using hc
      · have := List.mem_takeWhile_imp h
        simpa using this
    · exact ih w h

theorem intercalate_nil_list (sep : List Char) : List.intercalate sep [] = [] := by
  simp [List.intercalate, List.intersperse]

theorem intercalate_singleton_list (sep w : List Char) :
    List.intercalate sep [w] = w := by
  simp [List.intercalate, List.intersperse]

theorem intercalate_cons_ne_nil (sep w : List Char) (ws : List (List Char))
    (h : ws ≠ []) :
    List.intercalate sep (w :: ws) = w ++ sep ++ List.intercalate sep ws := by
  cases ws with
  | nil => exact absurd rfl h
  | cons x t =>
    simp [List.intercalate, List.intersperse, List.append_assoc]

/-- Splitting a text that starts with a nonempty whitespace-free word: the
word is recovered as the first field. -/
theorem pySplit_word_append (w t : List Char) (hw : w ≠ [])
    (hall : ∀ c ∈ w, isPySpace c = false) :
    pySplit (w ++ t) =
      (w ++ t.takeWhile (fun d => !isPySpace d)) ::
        pySplit (t.dropWhile (fun d => !isPySpace d)) := by
  cases w with
  | nil => exact absurd rfl hw
  | cons c cs =>
    have hc : isPySpace c = false := hall c (by simp)
    have hcs : ∀ d ∈ cs, (fun d => !isPySpace d) d = true := by
      intro d hd
      simp [hall d (List.mem_cons_of_mem _ hd)]
    rw [List.cons_append, pySplit_cons_nonspace c (cs ++ t) hc,
        List.takeWhile_append_of_pos hcs, List.dropWhile_append_of_pos hcs]
    simp

/-- `pySplit` is a left inverse of joining nonempty whitespace-free words
with single spaces. -/
theorem pySplit_intercalate (ws : List (List Char))
    (h : ∀ w ∈ ws, w ≠ [] ∧ ∀ c ∈ w, isPySpace c = false) :
    pySplit (List.intercalate [' '] ws) = ws := by
  induction ws with
  | nil =>
    rw [intercalate_nil_list, pySplit_nil]
  | cons w ws ih =>
    obtain ⟨hw, hall⟩ := h w (by simp)
    cases ws with
    | nil =>
      rw [intercalate_singleton_list]
      have h0 := pySplit_word_append w [] hw hall
      simpa [pySplit_nil] using h0
    | cons x t =>
      rw [intercalate_cons_ne_nil _ _ _ (by simp), List.append_assoc,
          pySplit_word_append w _ hw hall, List.singleton_append]
      have hsp : isPySpace ' ' = true := by decide
      have htake : List.takeWhile (fun d => !isPySpace d)
          (' ' :: [' '].intercalate (x :: t)) = [] := by
        simp [hsp]
      have hdrop : List.dropWhile (fun d => !isPySpace d)
          (' ' :: [' '].intercalate (x :: t)) = ' ' :: [' '].intercalate (x :: t) := by
        simp [hsp]
      rw [htake, hdrop, List.append_nil, pySplit_cons_space _ _ hsp,
          ih (fun v hv => h v (List.mem_cons_of_mem _ hv))]

theorem pymupdfCounts_pwt_le (det : PDFDetector) (pages : List (List Char)) :
    (pymupdfCounts det pages).2 ≤ pages.length := by
  induction pages with
  | nil => simp [pymupdfCounts]
  | cons t rest ih =>
    simp only [pymupdfCounts, List.length_cons]
    split <;> omega

theorem pypdf2Counts_pwt_le (det : PDFDetector) (pages : List (Option (List Char))) :
    (pypdf2Counts det pages).2 ≤ pages.length := by
  induction pages with
  | nil => simp [pypdf2Counts]
  | cons t rest ih =>
    cases t with
    | none =>
      simp only [pypdf2Counts, List.length_cons]
      omega
    | some text =>
      simp only [pypdf2Counts, List.length_cons]
      split <;> omega

/-- Structural facts about the backend-filled result: the text-page counter
never exceeds the page count, a zero-page document has zero characters, and
the stored average is the division the backend computed. -/
theorem stage1_facts (det : PDFDetector) (path : String) (e : ExtractOk) :
    (stage1 det path e).pages_with_text ≤ (stage1 det path e).total_pages ∧
    ((stage1 det path e).total_pages = 0 → (stage1 det path e).total_characters = 0) := by
  cases e with
  | pymupdf pages =>
    refine ⟨pymupdfCounts_pwt_le det pages, ?_⟩
    intro h
    have hnil : pages = [] := List.length_eq_zero.mp h
    subst hnil
    rfl
  | pypdf2 pages =>
    refine ⟨pypdf2Counts_pwt_le det pages, ?_⟩
    intro h
    have hnil : pages = [] := List.length_eq_zero.mp h
    subst hnil
    rfl

/-- Whenever `_determine_ocr_need` returns (does not raise), the result it
writes keeps the counting fields and satisfies `needs_ocr = !has_text`. -/
theorem determineOcrNeed_ok_inv (det : PDFDetector) (r r' : AnalysisResult)
    (hok : determineOcrNeed det r = .ok r') :
    r'.pages_with_text = r.pages_with_text ∧ r'.total_pages = r.total_pages ∧
    r'.needs_ocr = !r'.has_text := by
  unfold determineOcrNeed at hok
  split at hok
  · split at hok
    · split at hok
      · simp at hok
      · injection hok with h
        subst h
        simp
    · injection hok with h
      subst h
      simp
  · injection hok with h
    subst h
    simp

/-- When a zero-page result can only carry zero characters,
`_determine_ocr_need` returns normally and its verdict is the
three-condition threshold test. -/
theorem determineOcrNeed_ok_iff (det : PDFDetector) (r : AnalysisResult)
    (h : r.total_pages = 0 → r.total_characters = 0) :
    ∃ r', determineOcrNeed det r = .ok r' ∧
      (r'.needs_ocr = false ↔
        (r.total_characters > det.min_text_threshold ∧
         r.average_chars_per_page > (det.min_text_threshold : ℚ) ∧
         (r.pages_with_text : ℚ) / (r.total_pages : ℚ) ≥ det.min_text_ratio)) ∧
      r'.total_characters = r.total_characters ∧
      r'.average_chars_per_page = r.average_chars_per_page ∧
      r'.pages_with_text = r.pages_with_text ∧
      r'.total_pages = r.total_pages := by
  unfold determineOcrNeed
  by_cases h1 : r.total_characters > det.min_text_threshold
  · rw [if_pos h1]
    by_cases h2 : r.average_chars_per_page > (det.min_text_threshold : ℚ)
    · rw [if_pos h2]
      have h3 : ¬ r.total_pages = 0 := by
        intro h0
        have := h h0
        omega
      rw [if_neg h3]
      refine ⟨_, rfl, ?_, rfl, rfl, rfl, rfl⟩
      simp [h1, h2]
    · rw [if_neg h2]
      refine ⟨_, rfl, ?_, rfl, rfl, rfl, rfl⟩
      simp [h2]
  · rw [if_neg h1]
    refine ⟨_, rfl, ?_, rfl, rfl, rfl, rfl⟩
    simp [h1]

/-- C9: the whitespace normalization used before counting characters
(collapsing every whitespace run to a single space) is idempotent: for
every string `s`, `normalize (normalize s) = normalize s`. -/
theorem claim9_normalize_idempotent (s : List Char) :
    normalizeWhitespace (normalizeWhitespace s) = normalizeWhitespace s := by
  unfold normalizeWhitespace
  rw [pySplit_intercalate (pySplit s) (pySplit_fields s)]

/-- C2: every analysis result returned by `analyze_pdf` — primary success,
fallback success, or the both-backends-failed error path — satisfies
`pages_with_text ≤ total_pages` and `needs_ocr = !has_text`. -/
theorem claim2_analysis_invariant (det : PDFDetector) (path : String) (ext : Extraction) :
    (analyze_pdf det path ext).pages_with_text ≤ (analyze_pdf det path ext).total_pages ∧
    (analyze_pdf det path ext).needs_ocr = !(analyze_pdf det path ext).has_text := by
  cases ext with
  | bothFail n m => simp [analyze_pdf, initResult]
  | ok e =>
    obtain ⟨hle, h0⟩ := stage1_facts det path e
    obtain ⟨r', hok, _, _, _, hpwt, htp⟩ := determineOcrNeed_ok_iff det _ h0
    obtain ⟨_, _, hflag⟩ := determineOcrNeed_ok_inv det _ r' hok
    have hr : analyze_pdf det path (.ok e) = r' := by
      simp [analyze_pdf, hok]
    rw [hr]
    refine ⟨?_, hflag⟩
    rw [hpwt, htp]
    exact hle

/-- C1: for every document whose extraction succeeds, the analyzer sets
`needs_ocr` to `false` iff all three conditions hold on the result:
`total_characters > 50`, `average_chars_per_page > 50`, and
`pages_with_text / total_pages ≥ 0.1`. -/
theorem claim1_needs_ocr_iff_thresholds (path : String) (e : ExtractOk) :
    ((analyze_pdf PDFDetector.new path (.ok e)).needs_ocr = false ↔
      ((analyze_pdf PDFDetector.new path (.ok e)).total_characters > 50 ∧
       (analyze_pdf PDFDetector.new path (.ok e)).average_chars_per_page > 50 ∧
       ((analyze_pdf PDFDetector.new path (.ok e)).pages_with_text : ℚ) /
         ((analyze_pdf PDFDetector.new path (.ok e)).total_pages : ℚ) ≥ 1/10)) := by
  obtain ⟨hle, h0⟩ := stage1_facts PDFDetector.new path e
  obtain ⟨r', hok, hiff, htc, havg, hpwt, htp⟩ :=
    determineOcrNeed_ok_iff PDFDetector.new (stage1 PDFDetector.new path e) h0
  have hr : analyze_pdf PDFDetector.new path (.ok e) = r' := by
    simp [analyze_pdf, hok]
  rw [hr, htc, havg, hpwt, htp]
  simpa [PDFDetector.new] using hiff

/-- C10: for a document that extracts successfully with `total_pages = 0`,
`_determine_ocr_need` returns normally (no `ZeroDivisionError`: zero pages
force `total_characters = 0`, the first conjunct fails, and the
short-circuiting conjunction never evaluates the division) and the result
has `needs_ocr = true`. -/
theorem claim10_zero_pages_safe (det : PDFDetector) (path : String) (e : ExtractOk)
    (h : (stage1 det path e).total_pages = 0) :
    (analyze_pdf det path (.ok e)).total_characters = 0 ∧
    determineOcrNeed det (stage1 det path e) = .ok (analyze_pdf det path (.ok e)) ∧
    (analyze_pdf det path (.ok e)).needs_ocr = true := by
  obtain ⟨hle, h0⟩ := stage1_facts det path e
  have htc : (stage1 det path e).total_characters = 0 := h0 h
  have hnotgt : ¬ (stage1 det path e).total_characters > det.min_text_threshold := by
    omega
  have hok : determineOcrNeed det (stage1 det path e) =
      .ok { stage1 det path e with
              has_text := false, is_searchable := false, needs_ocr := true } := by
    unfold determineOcrNeed
    rw [if_neg hnotgt]
  have hr : analyze_pdf det path (.ok e) =
      { stage1 det path e with
          has_text := false, is_searchable := false, needs_ocr := true } := by
    simp [analyze_pdf, hok]
  rw [hr]
  exact ⟨htc, by rw [hok], rfl⟩

/-- Witness for C10 at the empty PyMuPDF extraction. -/
theorem claim10_zero_pages_safe_witness :
    (stage1 PDFDetector.new "doc.pdf" (.pymupdf [])).total_pages = 0 ∧
    (analyze_pdf PDFDetector.new "doc.pdf" (Extraction.ok (.pymupdf []))).needs_ocr = true :=
  ⟨rfl, (claim10_zero_pages_safe PDFDetector.new "doc.pdf" (.pymupdf []) rfl).2.2⟩

/-- The action-selection block never touches the `success` field of the
result it threads (line 45 initialises it to `False`; only the final
verification block may set it). -/
theorem chooseAction_success (p : OCRProcessor) (env : OcrEnv)
    (r0 : ProcessingResult) (force_ocr : Bool) :
    (chooseAction p env r0 force_ocr).1.success = r0.success := by
  unfold chooseAction copyExisting
  split
  · rfl
  · split
    · rfl
    · cases h : env.copyOutcome <;> simp [h]

/-- C5 counterexample: built from `Config.OCRMYPDF_CONFIG` — whose
`deskew` and `clean` entries are `True` — the processor still hands the
engine `deskew = False` and `clean = False`: the flags in `_apply_ocr` are
literal constants, not values taken from the supplied configuration. -/
theorem claim5_flags_ignore_config :
    OCRMYPDF_CONFIG.deskew = some true ∧ OCRMYPDF_CONFIG.clean = some true ∧
    (OCRProcessor.new OCRMYPDF_CONFIG).applyOcrArgs.deskew = false ∧
    (OCRProcessor.new OCRMYPDF_CONFIG).applyOcrArgs.clean = false :=
  ⟨rfl, rfl, rfl, rfl⟩

/-- C5 amended: the deskew and clean flags handed to the external OCR
engine are the fixed constants `false` of the `_apply_ocr` invocation,
independent of the configuration supplied at construction; of the engine
arguments only the language comes from that configuration. -/
theorem claim5_flags_are_constants (cfg : OcrConfig) :
    (OCRProcessor.new cfg).applyOcrArgs.deskew = false ∧
    (OCRProcessor.new cfg).applyOcrArgs.clean = false ∧
    (OCRProcessor.new cfg).applyOcrArgs.language = cfg.language.getD "spa" :=
  ⟨rfl, rfl, rfl⟩

/-- C6: when `process_pdf` is called with `force_ocr = true` (on an input
whose stat succeeds), it selects the OCR path — `processing_method` is
`OCR_FORCED` and the engine is invoked, with the `_apply_ocr` argument
record — and the analyzer is never consulted, whatever `env.analysis`
(the verdict the analyzer would give) contains. -/
theorem claim6_force_ocr_selects_ocr (p : OCRProcessor) (input_path output_path : String)
    (env : OcrEnv) (n : Nat) (hstat : env.inputStat = .ok n) :
    (p.process_pdf input_path output_path env true).1.processing_method = "OCR_FORCED" ∧
    (p.process_pdf input_path output_path env true).2.engineCalls = 1 ∧
    (p.process_pdf input_path output_path env true).2.engineArgs = some p.applyOcrArgs ∧
    (p.process_pdf input_path output_path env true).2.detectorCalls = 0 := by
  unfold OCRProcessor.process_pdf
  simp only [hstat]
  unfold chooseAction
  simp only [if_true]
  split <;> simp

/-- Witness for C6: a concrete environment where the analyzer's verdict
would be `needs_ocr = false`, yet the forced run still takes the OCR path. -/
theorem claim6_force_ocr_selects_ocr_witness :
    ((OCRProcessor.new OCRMYPDF_CONFIG).process_pdf "in.pdf" "out.pdf"
        { inputStat := .ok 1000
          analysis := { initResult "in.pdf" with needs_ocr := false, has_text := true }
          engineOutcome := .ok
          copyOutcome := .ok ()
          outputExistsAfter := true
          outputSizeAfter := 900 } true).1.processing_method = "OCR_FORCED" ∧
    ((OCRProcessor.new OCRMYPDF_CONFIG).process_pdf "in.pdf" "out.pdf"
        { inputStat := .ok 1000
          analysis := { initResult "in.pdf" with needs_ocr := false, has_text := true }
          engineOutcome := .ok
          copyOutcome := .ok ()
          outputExistsAfter := true
          outputSizeAfter := 900 } true).2.detectorCalls = 0 := by
  have h := claim6_force_ocr_selects_ocr (OCRProcessor.new OCRMYPDF_CONFIG)
    "in.pdf" "out.pdf"
    { inputStat := .ok 1000
      analysis := { initResult "in.pdf" with needs_ocr := false, has_text := true }
      engineOutcome := .ok
      copyOutcome := .ok ()
      outputExistsAfter := true
      outputSizeAfter := 900 } 1000 rfl
  exact ⟨h.1, h.2.2.2⟩

/-- C7: `process_pdf` declares `success = true` only if, after the chosen
action, the output file actually exists at `output_path`; whenever the
output file is absent — in particular when the engine reported no error —
the result has `success = false` and an error message. -/
theorem claim7_success_requires_output (p : OCRProcessor)
    (input_path output_path : String) (env : OcrEnv) (force_ocr : Bool) :
    ((p.process_pdf input_path output_path env force_ocr).1.success = true →
       env.outputExistsAfter = true) ∧
    (env.outputExistsAfter = false →
       (p.process_pdf input_path output_path env force_ocr).1.success = false ∧
       (p.process_pdf input_path output_path env force_ocr).1.error ≠ none) := by
  unfold OCRProcessor.process_pdf
  cases hstat : env.inputStat with
  | error e => simp
  | ok size_before =>
    cases hex : env.outputExistsAfter with
    | true =>
      constructor
      · intro _
        rfl
      · intro h
        cases h
    | false =>
      constructor
      · intro h
        exfalso
        simp [hex, chooseAction_success] at h
      · intro _
        simp [hex, chooseAction_success]

/-- Witness for C7: a run where everything succeeds (output present), and a
run identical except that the output file is missing after the engine
returned without error. -/
theorem claim7_success_requires_output_witness :
    ({ inputStat := .ok 1000
       analysis := initResult "in.pdf"
       engineOutcome := .ok
       copyOutcome := .ok ()
       outputExistsAfter := true
       outputSizeAfter := 900 : OcrEnv }.outputExistsAfter = true) ∧
    (((OCRProcessor.new OCRMYPDF_CONFIG).process_pdf "in.pdf" "out.pdf"
        { inputStat := .ok 1000
          analysis := initResult "in.pdf"
          engineOutcome := .ok
          copyOutcome := .ok ()
          outputExistsAfter := false
          outputSizeAfter := 0 } false).1.success = false ∧
     ((OCRProcessor.new OCRMYPDF_CONFIG).process_pdf "in.pdf" "out.pdf"
        { inputStat := .ok 1000
          analysis := initResult "in.pdf"
          engineOutcome := .ok
          copyOutcome := .ok ()
          outputExistsAfter := false
          outputSizeAfter := 0 } false).1.error ≠ none) := by
  constructor
  · exact (claim7_success_requires_output (OCRProcessor.new OCRMYPDF_CONFIG)
      "in.pdf" "out.pdf"
      { inputStat := .ok 1000
        analysis := initResult "in.pdf"
        engineOutcome := .ok
        copyOutcome := .ok ()
        outputExistsAfter := true
        outputSizeAfter := 900 } false).1 rfl
  · exact (claim7_success_requires_output (OCRProcessor.new OCRMYPDF_CONFIG)
      "in.pdf" "out.pdf"
      { inputStat := .ok 1000
        analysis := initResult "in.pdf"
        engineOutcome := .ok
        copyOutcome := .ok ()
        outputExistsAfter := false
        outputSizeAfter := 0 } false).2 rfl

/-- C8 counterexample: the engine raises `ExitCodeNotOk` with its own
message, but the returned result's `error` field carries the fixed
output-missing message, not the engine's message (which `_apply_ocr` only
logs). -/
theorem claim8_error_not_engines :
    ((OCRProcessor.new OCRMYPDF_CONFIG).process_pdf "in.pdf" "out.pdf"
        { inputStat := .ok 1000
          analysis := initResult "in.pdf"
          engineOutcome := .exitCodeNotOk "ocrmypdf failed with exit code 6"
          copyOutcome := .ok ()
          outputExistsAfter := false
          outputSizeAfter := 0 } true).1.success = false ∧
    ((OCRProcessor.new OCRMYPDF_CONFIG).process_pdf "in.pdf" "out.pdf"
        { inputStat := .ok 1000
          analysis := initResult "in.pdf"
          engineOutcome := .exitCodeNotOk "ocrmypdf failed with exit code 6"
          copyOutcome := .ok ()
          outputExistsAfter := false
          outputSizeAfter := 0 } true).1.error =
      some "El archivo de salida no se generó correctamente" ∧
    ((OCRProcessor.new OCRMYPDF_CONFIG).process_pdf "in.pdf" "out.pdf"
        { inputStat := .ok 1000
          analysis := initResult "in.pdf"
          engineOutcome := .exitCodeNotOk "ocrmypdf failed with exit code 6"
          copyOutcome := .ok ()
          outputExistsAfter := false
          outputSizeAfter := 0 } true).1.error ≠
      some "ocrmypdf failed with exit code 6" := by
  refine ⟨rfl, rfl, by decide⟩

/-- C8 amended: when the OCR engine fails (non-zero exit or raised error)
on a run that invokes it, `process_pdf` returns `success = false` whose
`error` field carries the fixed message
`'El archivo de salida no se generó correctamente'` — the engine's own
message is only logged, not returned — and the engine is invoked exactly
once, never retried. -/
theorem claim8_engine_failure_no_retry (p : OCRProcessor)
    (input_path output_path : String) (env : OcrEnv) (force_ocr : Bool) (n : Nat)
    (hstat : env.inputStat = .ok n)
    (hpath : force_ocr = true ∨ env.analysis.needs_ocr = true)
    (hfail : applyOcrReturn env.engineOutcome = false) :
    (p.process_pdf input_path output_path env force_ocr).1.success = false ∧
    (p.process_pdf input_path output_path env force_ocr).1.error =
      some "El archivo de salida no se generó correctamente" ∧
    (p.process_pdf input_path output_path env force_ocr).2.engineCalls = 1 := by
  unfold OCRProcessor.process_pdf
  simp only [hstat]
  unfold chooseAction
  cases force_ocr with
  | true => simp [hfail]
  | false =>
    have h : env.analysis.needs_ocr = true := by
      rcases hpath with h | h
      · cases h
      · exact h
    simp [h, hfail]

/-- Witness for C8 amended: apply at a concrete failing-engine run. -/
theorem claim8_engine_failure_no_retry_witness :
    ((OCRProcessor.new OCRMYPDF_CONFIG).process_pdf "in.pdf" "out.pdf"
        { inputStat := .ok 7
          analysis := initResult "in.pdf"
          engineOutcome := .engineError "engine crashed"
          copyOutcome := .ok ()
          outputExistsAfter := true
          outputSizeAfter := 900 } false).1.success = false ∧
    ((OCRProcessor.new OCRMYPDF_CONFIG).process_pdf "in.pdf" "out.pdf"
        { inputStat := .ok 7
          analysis := initResult "in.pdf"
          engineOutcome := .engineError "engine crashed"
          copyOutcome := .ok ()
          outputExistsAfter := true
          outputSizeAfter := 900 } false).2.engineCalls = 1 := by
  have h := claim8_engine_failure_no_retry (OCRProcessor.new OCRMYPDF_CONFIG)
    "in.pdf" "out.pdf"
    { inputStat := .ok 7
      analysis := initResult "in.pdf"
      engineOutcome := .engineError "engine crashed"
      copyOutcome := .ok ()
      outputExistsAfter := true
      outputSizeAfter := 900 } false 7 rfl (Or.inr rfl) rfl
  exact ⟨h.1, h.2.2⟩


/-- Evaluation of `validate_pdf_file` on an accepted path: exists, suffix
`.pdf`, at most 100 MB, nonempty.  (The size check divides by `1024 * 1024`
in ℚ, so it is discharged here once by arithmetic rather than by kernel
evaluation.) -/
theorem validate_pdf_file_accepts (file_path : String) (info : PathInfo)
    (h1 : info.pathExists = true) (h2 : info.suffixLower = ".pdf")
    (h3 : info.sizeBytes ≤ 104857600) (h4 : info.sizeBytes ≠ 0) :
    (validate_pdf_file file_path info).1 = true := by
  unfold validate_pdf_file
  have hq : ¬ ((info.sizeBytes : ℚ) / (1024 * 1024) > 100) := by
    rw [not_lt, div_le_iff₀ (by norm_num)]
    calc (info.sizeBytes : ℚ) ≤ 104857600 := by exact_mod_cast h3
    _ = 100 * (1024 * 1024) := by norm_num
  rw [h1, h2]
  simp [hq, h4]

/-- C4 counterexample: input and output are the very same path, with the
same resolved absolute path; both validators accept, so the orchestrator's
validation does not reject the pair and processing starts — the analyzer
and the invoker both run.  No check anywhere compares the two paths. -/
theorem claim4_equal_paths_not_rejected :
    (⟨true, ".pdf", 1000, true, true, true, "/docs/a.pdf"⟩ : PathInfo).resolved =
      (⟨true, ".pdf", 1000, true, true, true, "/docs/a.pdf"⟩ : PathInfo).resolved ∧
    (validate_pdf_file "a.pdf"
        ⟨true, ".pdf", 1000, true, true, true, "/docs/a.pdf"⟩).1 = true ∧
    (validate_output_path "a.pdf"
        ⟨true, ".pdf", 1000, true, true, true, "/docs/a.pdf"⟩).1 = true ∧
    (process_single_pdf
        ⟨⟨true, ".pdf", 1000, true, true, true, "/docs/a.pdf"⟩,
         ⟨true, ".pdf", 1000, true, true, true, "/docs/a.pdf"⟩,
         .ok (.pymupdf []),
         ⟨.ok 1000, initResult "a.pdf", .ok, .ok (), true, 900⟩⟩
        "a.pdf" "a.pdf" false).2.analyzerCalled = true ∧
    (process_single_pdf
        ⟨⟨true, ".pdf", 1000, true, true, true, "/docs/a.pdf"⟩,
         ⟨true, ".pdf", 1000, true, true, true, "/docs/a.pdf"⟩,
         .ok (.pymupdf []),
         ⟨.ok 1000, initResult "a.pdf", .ok, .ok (), true, 900⟩⟩
        "a.pdf" "a.pdf" false).2.invokerCalled = true := by
  have hin : (validate_pdf_file "a.pdf"
      (⟨true, ".pdf", 1000, true, true, true, "/docs/a.pdf"⟩ : PathInfo)).1 = true :=
    validate_pdf_file_accepts "a.pdf" _ rfl rfl (by norm_num) (by norm_num)
  have hout : (validate_output_path "a.pdf"
      (⟨true, ".pdf", 1000, true, true, true, "/docs/a.pdf"⟩ : PathInfo)).1 = true := by
    decide
  refine ⟨rfl, hin, hout, ?_, ?_⟩ <;>
  · unfold process_single_pdf
    simp only [hin, hout, Bool.not_true, Bool.false_eq_true, if_false]
    rfl

/-- C4 amended: the orchestrator's validation never compares the output
path with the input path: whenever each path individually passes its own
checks, the pair passes validation and processing starts (the analyzer is
invoked), even when the two resolved absolute paths are equal. -/
theorem claim4_no_input_output_comparison (env : OrchestratorEnv)
    (input_path output_path : String) (force_ocr : Bool)
    (_heq : env.inputInfo.resolved = env.outputInfo.resolved)
    (hin : (validate_pdf_file input_path env.inputInfo).1 = true)
    (hout : (validate_output_path output_path env.outputInfo).1 = true) :
    (process_single_pdf env input_path output_path force_ocr).2.analyzerCalled = true := by
  unfold process_single_pdf
  simp only [hin, hout, Bool.not_true, Bool.false_eq_true, if_false]
  split <;> rfl

/-- Witness for C4 amended, at a concrete pair of equal paths. -/
theorem claim4_no_input_output_comparison_witness :
    (process_single_pdf
        ⟨⟨true, ".pdf", 500, true, true, true, "/docs/b.pdf"⟩,
         ⟨true, ".pdf", 500, true, true, true, "/docs/b.pdf"⟩,
         .ok (.pymupdf []),
         ⟨.ok 500, initResult "b.pdf", .ok, .ok (), true, 400⟩⟩
        "b.pdf" "b.pdf" true).2.analyzerCalled = true :=
  claim4_no_input_output_comparison
    ⟨⟨true, ".pdf", 500, true, true, true, "/docs/b.pdf"⟩,
     ⟨true, ".pdf", 500, true, true, true, "/docs/b.pdf"⟩,
     .ok (.pymupdf []),
     ⟨.ok 500, initResult "b.pdf", .ok, .ok (), true, 400⟩⟩
    "b.pdf" "b.pdf" true rfl
    (validate_pdf_file_accepts "b.pdf" _ rfl rfl (by norm_num) (by norm_num))
    (by decide)

/-- C3 counterexample: with both extraction backends failing, the analyzer
result does carry `error` and `needs_ocr = true`, but the orchestrator
aborts the run — `process_single_pdf` returns `false` and the OCR step is
never reached — rather than continuing to OCR. -/
theorem claim3_orchestrator_aborts :
    (analyze_pdf PDFDetector.new "c.pdf" (.bothFail 0 "")).error.isSome = true ∧
    (analyze_pdf PDFDetector.new "c.pdf" (.bothFail 0 "")).needs_ocr = true ∧
    (process_single_pdf
        ⟨⟨true, ".pdf", 1000, true, true, true, "/docs/c.pdf"⟩,
         ⟨true, ".pdf", 1000, true, true, true, "/docs/c_ocr.pdf"⟩,
         .bothFail 0 "",
         ⟨.ok 1000, initResult "c.pdf", .ok, .ok (), true, 900⟩⟩
        "c.pdf" "c_ocr.pdf" false).1 = false ∧
    (process_single_pdf
        ⟨⟨true, ".pdf", 1000, true, true, true, "/docs/c.pdf"⟩,
         ⟨true, ".pdf", 1000, true, true, true, "/docs/c_ocr.pdf"⟩,
         .bothFail 0 "",
         ⟨.ok 1000, initResult "c.pdf", .ok, .ok (), true, 900⟩⟩
        "c.pdf" "c_ocr.pdf" false).2.invokerCalled = false := by
  have hin : (validate_pdf_file "c.pdf"
      (⟨true, ".pdf", 1000, true, true, true, "/docs/c.pdf"⟩ : PathInfo)).1 = true :=
    validate_pdf_file_accepts "c.pdf" _ rfl rfl (by norm_num) (by norm_num)
  have hout : (validate_output_path "c_ocr.pdf"
      (⟨true, ".pdf", 1000, true, true, true, "/docs/c_ocr.pdf"⟩ : PathInfo)).1 = true := by
    decide
  refine ⟨rfl, rfl, ?_, ?_⟩ <;>
  · unfold process_single_pdf
    simp only [hin, hout, Bool.not_true, Bool.false_eq_true, if_false]
    rfl

/-- C3 amended: when both extraction backends fail, the analyzer returns a
result with `error` set and `needs_ocr = true` (fail-safe: assume OCR
needed); the orchestrator, however, treats the analysis error as fatal —
it aborts the run with `false` and the OCR step is never invoked. -/
theorem claim3_both_fail_aborts (det : PDFDetector) (path : String)
    (n : Nat) (m : String) (env : OrchestratorEnv)
    (input_path output_path : String) (force_ocr : Bool)
    (hext : env.extraction = .bothFail n m)
    (hin : (validate_pdf_file input_path env.inputInfo).1 = true)
    (hout : (validate_output_path output_path env.outputInfo).1 = true) :
    ((analyze_pdf det path (.bothFail n m)).error.isSome = true ∧
     (analyze_pdf det path (.bothFail n m)).needs_ocr = true) ∧
    ((process_single_pdf env input_path output_path force_ocr).1 = false ∧
     (process_single_pdf env input_path output_path force_ocr).2.invokerCalled = false) := by
  refine ⟨⟨rfl, rfl⟩, ?_⟩
  unfold process_single_pdf
  simp [hin, hout, hext, analyze_pdf]

/-- Witness for C3 amended, at a concrete run with both backends failing. -/
theorem claim3_both_fail_aborts_witness :
    (process_single_pdf
        ⟨⟨true, ".pdf", 800, true, true, true, "/docs/d.pdf"⟩,
         ⟨true, ".pdf", 800, true, true, true, "/docs/d_ocr.pdf"⟩,
         .bothFail 2 "PyMuPDF",
         ⟨.ok 800, initResult "d.pdf", .ok, .ok (), true, 700⟩⟩
        "d.pdf" "d_ocr.pdf" false).1 = false ∧
    (process_single_pdf
        ⟨⟨true, ".pdf", 800, true, true, true, "/docs/d.pdf"⟩,
         ⟨true, ".pdf", 800, true, true, true, "/docs/d_ocr.pdf"⟩,
         .bothFail 2 "PyMuPDF",
         ⟨.ok 800, initResult "d.pdf", .ok, .ok (), true, 700⟩⟩
        "d.pdf" "d_ocr.pdf" false).2.invokerCalled = false :=
  (claim3_both_fail_aborts PDFDetector.new "d.pdf" 2 "PyMuPDF"
    ⟨⟨true, ".pdf", 800, true, true, true, "/docs/d.pdf"⟩,
     ⟨true, ".pdf", 800, true, true, true, "/docs/d_ocr.pdf"⟩,
     .bothFail 2 "PyMuPDF",
     ⟨.ok 800, initResult "d.pdf", .ok, .ok (), true, 700⟩⟩
    "d.pdf" "d_ocr.pdf" false rfl
    (validate_pdf_file_accepts "d.pdf" _ rfl rfl (by norm_num) (by norm_num))
    (by decide)).2
